import Mathlib

/-!
# A verification of the file-manager core (`fmgr.py`)

Shallow embedding of the navigation / selection / bulk-operation state
machine of `src/fmgr.py`.  Python methods that mutate `self` become
functions that return the updated state; a raised exception becomes an
`Except.error` result, and since in Python the mutations performed before
the raise survive, every fallible operation returns its post-state
together with the `Except` outcome.

The operating-system layer (`os`, `shutil`) is the external boundary:
  * for the navigator / selector claims it is an `OsEnv` — a pure
    `listdir` oracle plus an `isdir` predicate (those operations never
    mutate the filesystem);
  * for the bulk operations it is a concrete `World` (a set of regular
    files and a set of directories) together with models of
    `shutil.copy2`, `shutil.move`, `os.remove` and `shutil.rmtree` with
    their conventional POSIX semantics.

Path-string functions (`os.path.join`, `os.path.dirname`,
`os.path.basename`) are translated from CPython `posixpath`.
-/

/-- Index of the last occurrence of a slash in a character list
(CPython `p.rfind(sep)` for `sep = '/'`). -/
def last_slash_idx : List Char → Option Nat
  | [] => none
  | c :: cs =>
    match last_slash_idx cs with
    | some j => some (j + 1)
    | none => if c = '/' then some 0 else none

/-- Remove trailing slashes (CPython `head.rstrip(sep)`). -/
def rstrip_slashes (cs : List Char) : List Char :=
  (cs.reverse.dropWhile (fun c => c = '/')).reverse

/-- `os.path.dirname` for POSIX paths, translated from CPython
`posixpath.dirname`: everything up to and including the last slash,
with trailing slashes stripped unless the head is all slashes. -/
def os_path_dirname (p : String) : String :=
  let cs := p.toList
  match last_slash_idx cs with
  | none => ""
  | some j =>
    let head := cs.take (j + 1)
    if head.all (fun c => c = '/') then String.mk head
    else String.mk (rstrip_slashes head)

/-- `os.path.basename` for POSIX paths (CPython `posixpath.basename`):
everything after the last slash. -/
def os_path_basename (p : String) : String :=
  match last_slash_idx p.toList with
  | none => p
  | some j => String.mk (p.toList.drop (j + 1))

/-- `b.startswith('/')` on the character level. -/
def starts_with_slash (p : String) : Bool :=
  match p.toList with
  | [] => false
  | c :: _ => c = '/'

/-- `a.endswith('/')` on the character level. -/
def ends_with_slash (p : String) : Bool :=
  match p.toList.getLast? with
  | none => false
  | some c => c = '/'

/-- `os.path.join` for POSIX paths with two components (CPython
`posixpath.join`): an absolute second component replaces the first;
otherwise a single separator is inserted unless one is already there. -/
def os_path_join (a b : String) : String :=
  if starts_with_slash b then b
  else if a = "" ∨ ends_with_slash a then a ++ b
  else a ++ "/" ++ b

/-- Error taxonomy of the system (spec §7), with the Python exception it
embeds: `invalidIndex` = the two `ValueError`s (spec `IndexOutOfRange`),
`notADirectory` = `NotADirectoryError`, `notFound` = `FileNotFoundError`,
`isADirectory` = the `IsADirectoryError` that `shutil.copy2` raises on a
directory source, `accessDenied` = `PermissionError`, `ioFailure` = any
other `OSError`.  The `String` payload names the offending entry/path. -/
inductive Err where
  | invalidIndex : Err
  | notADirectory : String → Err
  | notFound : String → Err
  | isADirectory : String → Err
  | accessDenied : Err
  | ioFailure : Err
deriving DecidableEq, Repr

deriving instance DecidableEq for Except

/-- The read-only slice of the OS layer used by `FileExplorer` and
`FileSelector`: `os.listdir` (which may fail) and `os.path.isdir`.
These operations never mutate the filesystem, so the environment is a
pure oracle. -/
structure OsEnv where
  listdir : String → Except Err (List String)
  isdir : String → Bool

/-- State of class `FileExplorer`: the single `_current_path` cell. -/
structure FileExplorer where
  current_path : String
deriving DecidableEq, Repr

/-- `FileExplorer.get_current_directory`. -/
def FileExplorer.get_current_directory (e : FileExplorer) : String :=
  e.current_path

/-- `FileExplorer.set_current_directory`. -/
def FileExplorer.set_current_directory (e : FileExplorer) (path : String) :
    FileExplorer :=
  { e with current_path := path }

/-- `FileExplorer.list_directory_contents`: `os.listdir(self._current_path)`. -/
def FileExplorer.list_directory_contents (e : FileExplorer) (env : OsEnv) :
    Except Err (List String) :=
  env.listdir e.current_path

/-- `FileExplorer.navigate_to_index`.  Returns the post-state (unchanged on
every error path) and the outcome. -/
def FileExplorer.navigate_to_index (e : FileExplorer) (env : OsEnv)
    (index : Int) : FileExplorer × Except Err Unit :=
  match e.list_directory_contents env with
  | Except.error er => (e, Except.error er)
  | Except.ok contents =>
    if index < 0 ∨ (contents.length : Int) ≤ index then
      (e, Except.error Err.invalidIndex)
    else
      let selected := contents.getD index.toNat ""
      let full_path := os_path_join e.current_path selected
      if env.isdir full_path then
        ({ e with current_path := full_path }, Except.ok ())
      else
        (e, Except.error (Err.notADirectory selected))

/-- `FileExplorer.go_to_parent_directory`: pure string manipulation via
`os.path.dirname`; total, no filesystem access, no failure. -/
def FileExplorer.go_to_parent_directory (e : FileExplorer) : FileExplorer :=
  { e with current_path := os_path_dirname e.current_path }

/-- State of class `FileSelector`: the referenced explorer, the
`_selected_files` list (the SelectionSet) and the `_current_directory_contents`
snapshot.  The explorer reference is embedded as a field because no selector
operation mutates it. -/
structure FileSelector where
  explorer : FileExplorer
  selected_files : List String
  current_directory_contents : List String
deriving DecidableEq, Repr

/-- `FileSelector.load_directory_contents`: stores the fresh listing in the
snapshot and returns it; when `os.listdir` raises, the assignment is skipped,
so the state is unchanged. -/
def FileSelector.load_directory_contents (s : FileSelector) (env : OsEnv) :
    FileSelector × Except Err (List String) :=
  match s.explorer.list_directory_contents env with
  | Except.error er => (s, Except.error er)
  | Except.ok contents =>
    ({ s with current_directory_contents := contents }, Except.ok contents)

/-- The `for i in indices` loop of `FileSelector.select_files_by_indices`:
appends `os.path.join(current_dir, contents[i])` for each in-range index and
raises `ValueError` at the first out-of-range one, keeping what was already
appended. -/
def select_indices_loop (current_dir : String) (contents : List String)
    (selected : List String) (indices : List Int) :
    List String × Except Err Unit :=
  match indices with
  | [] => (selected, Except.ok ())
  | i :: rest =>
    if 0 ≤ i ∧ i < (contents.length : Int) then
      select_indices_loop current_dir contents
        (selected ++ [os_path_join current_dir (contents.getD i.toNat "")]) rest
    else
      (selected, Except.error Err.invalidIndex)

/-- `FileSelector.select_files_by_indices`: refreshes the snapshot, clears the
prior selection, then resolves the indices in input order; on success returns
the SelectionSet, on the first invalid index fails leaving the partial
selection in place. -/
def FileSelector.select_files_by_indices (s : FileSelector) (env : OsEnv)
    (indices : List Int) : FileSelector × Except Err (List String) :=
  match s.load_directory_contents env with
  | (s1, Except.error er) => (s1, Except.error er)
  | (s1, Except.ok _) =>
    let current_dir := s1.explorer.get_current_directory
    let s2 := { s1 with selected_files := [] }
    match select_indices_loop current_dir s2.current_directory_contents
        s2.selected_files indices with
    | (sel, Except.ok _) =>
      ({ s2 with selected_files := sel }, Except.ok sel)
    | (sel, Except.error er) =>
      ({ s2 with selected_files := sel }, Except.error er)

/-- `FileSelector.get_selected_files`. -/
def FileSelector.get_selected_files (s : FileSelector) : List String :=
  s.selected_files

/-- `FileSelector.clear_selection`. -/
def FileSelector.clear_selection (s : FileSelector) : FileSelector :=
  { s with selected_files := [] }

/-- Mutable filesystem state for the bulk operations: the set of regular
files and the set of directories, each as a list of absolute paths. -/
structure World where
  files : List String
  dirs : List String
deriving DecidableEq, Repr

/-- `os.path.isfile`. -/
def World.isfile (w : World) (p : String) : Bool :=
  w.files.contains p

/-- `os.path.isdir`. -/
def World.isdir (w : World) (p : String) : Bool :=
  w.dirs.contains p

/-- `os.path.exists`: true for a regular file or a directory. -/
def World.path_exists (w : World) (p : String) : Bool :=
  w.isfile p || w.isdir p

/-- `p` equals `root` or lies strictly below it. -/
def path_under (root p : String) : Bool :=
  p = root || (root ++ "/").isPrefixOf p

/-- Relocate `p` when it equals `root` or lies below it (used by the
directory case of `shutil.move`). -/
def rename_under (root target p : String) : String :=
  if p = root then target
  else if (root ++ "/").isPrefixOf p then target ++ (p.drop root.length)
  else p

/-- `shutil.copy2(src, dst)` with conventional POSIX semantics: opening a
directory source for reading raises `IsADirectoryError`; a regular file is
copied to `dst` itself, or into `dst` under its base name when `dst` is a
directory; a missing source raises `FileNotFoundError`.  It never copies a
directory tree. -/
def shutil_copy2 (w : World) (src dst : String) : Except Err World :=
  if w.isdir src then Except.error (Err.isADirectory src)
  else if w.isfile src then
    let target := if w.isdir dst then os_path_join dst (os_path_basename src)
                  else dst
    Except.ok { w with
      files := if w.files.contains target then w.files
               else w.files ++ [target] }
  else Except.error (Err.notFound src)

/-- `shutil.move(src, dst)` with conventional semantics: when `dst` is an
existing directory the real destination is `dst/basename(src)` and an
existing real destination is an error; otherwise the source file or whole
source tree is relocated. -/
def shutil_move (w : World) (src dst : String) : Except Err World :=
  let real_dst := if w.isdir dst then os_path_join dst (os_path_basename src)
                  else dst
  if w.isdir dst && w.path_exists real_dst then Except.error Err.ioFailure
  else if w.isfile src then
    Except.ok { w with files := (w.files.filter (fun q => q ≠ src)) ++ [real_dst] }
  else if w.isdir src then
    Except.ok { files := w.files.map (rename_under src real_dst),
                dirs := w.dirs.map (rename_under src real_dst) }
  else Except.error (Err.notFound src)

/-- `os.remove(p)`: removes the regular file `p`. -/
def World.os_remove (w : World) (p : String) : World :=
  { w with files := w.files.filter (fun q => q ≠ p) }

/-- `shutil.rmtree(p)`: removes the directory `p` and everything below it. -/
def World.shutil_rmtree (w : World) (p : String) : World :=
  { files := w.files.filter (fun q => ¬ path_under p q),
    dirs := w.dirs.filter (fun q => ¬ path_under p q) }

/-- State of class `FileManager`: the referenced selector. -/
structure FileManager where
  selector : FileSelector
deriving DecidableEq, Repr

/-- The `for f in files` loop of `FileManager.copy_files`: existence check,
then `shutil.copy2(f, destination)`; the loop stops at the first failure,
keeping the filesystem effects of the earlier iterations. -/
def copy_files_loop (w : World) (destination : String) (fs : List String) :
    World × Except Err Unit :=
  match fs with
  | [] => (w, Except.ok ())
  | f :: rest =>
    if w.path_exists f then
      match shutil_copy2 w f destination with
      | Except.ok w1 => copy_files_loop w1 destination rest
      | Except.error er => (w, Except.error er)
    else (w, Except.error (Err.notFound f))

/-- `FileManager.copy_files`: iterates the loop over the selection; the
`clear_selection()` call sits after the loop, so it runs only when no
exception propagates out. -/
def FileManager.copy_files (m : FileManager) (w : World) (destination : String) :
    (FileManager × World) × Except Err Unit :=
  match copy_files_loop w destination m.selector.get_selected_files with
  | (w1, Except.ok _) =>
    ((⟨m.selector.clear_selection⟩, w1), Except.ok ())
  | (w1, Except.error er) => ((m, w1), Except.error er)

/-- The `for f in files` loop of `FileManager.move_files`. -/
def move_files_loop (w : World) (destination : String) (fs : List String) :
    World × Except Err Unit :=
  match fs with
  | [] => (w, Except.ok ())
  | f :: rest =>
    if w.path_exists f then
      match shutil_move w f destination with
      | Except.ok w1 => move_files_loop w1 destination rest
      | Except.error er => (w, Except.error er)
    else (w, Except.error (Err.notFound f))

/-- `FileManager.move_files`: same shape as `copy_files`, with
`shutil.move` as the per-path action. -/
def FileManager.move_files (m : FileManager) (w : World) (destination : String) :
    (FileManager × World) × Except Err Unit :=
  match move_files_loop w destination m.selector.get_selected_files with
  | (w1, Except.ok _) =>
    ((⟨m.selector.clear_selection⟩, w1), Except.ok ())
  | (w1, Except.error er) => ((m, w1), Except.error er)

/-- The `for f in files` loop of `FileManager.delete_files`: a regular file
is removed with `os.remove`, a directory with `shutil.rmtree`, anything else
raises `FileNotFoundError`. -/
def delete_files_loop (w : World) (fs : List String) :
    World × Except Err Unit :=
  match fs with
  | [] => (w, Except.ok ())
  | f :: rest =>
    if w.isfile f then delete_files_loop (w.os_remove f) rest
    else if w.isdir f then delete_files_loop (w.shutil_rmtree f) rest
    else (w, Except.error (Err.notFound f))

/-- `FileManager.delete_files`: same shape, with the remove/rmtree branch
as the per-path action. -/
def FileManager.delete_files (m : FileManager) (w : World) :
    (FileManager × World) × Except Err Unit :=
  match delete_files_loop w m.selector.get_selected_files with
  | (w1, Except.ok _) =>
    ((⟨m.selector.clear_selection⟩, w1), Except.ok ())
  | (w1, Except.error er) => ((m, w1), Except.error er)

/-- A concrete read-only environment: `/home/u` holds the entries
`a.txt`, `docs`, `b.txt`, of which only `docs` is a directory. -/
def envC : OsEnv :=
  { listdir := fun p =>
      if p = "/home/u" then Except.ok ["a.txt", "docs", "b.txt"]
      else Except.error Err.ioFailure,
    isdir := fun p => p = "/home/u/docs" }

/-- A concrete explorer sitting at `/home/u`. -/
def expC : FileExplorer := ⟨"/home/u"⟩

/-- A concrete selector over `expC` with nothing selected yet. -/
def selC : FileSelector := ⟨expC, [], []⟩

/-- The absolute path the selector stores for index `j` of snapshot
`contents` taken in directory `cd`. -/
def resolved_path (cd : String) (contents : List String) (j : Int) : String :=
  os_path_join cd (contents.getD j.toNat "")

/-- Outcome predicate for a bulk operation run from manager state `before`:
on success the SelectionSet was cleared; on a propagated failure the manager
(hence the SelectionSet) is exactly as before the call. -/
def cleared_on_success_kept_on_failure (before : FileManager)
    (r : (FileManager × World) × Except Err Unit) : Prop :=
  match r.2 with
  | Except.ok _ => r.1.1.selector.selected_files = []
  | Except.error _ => r.1.1 = before

/-- Outcome predicate: when the bulk operation succeeds, the SelectionSet
is empty afterwards. -/
def selection_empty_on_success
    (r : (FileManager × World) × Except Err Unit) : Prop :=
  match r.2 with
  | Except.ok _ => r.1.1.selector.selected_files = []
  | Except.error _ => True

/-- A world holding the regular file `/home/u/a.txt` under directory
`/home/u`. -/
def wC1 : World := ⟨["/home/u/a.txt"], ["/home/u"]⟩

/-- A manager whose selection holds one existing file and one missing
path. -/
def mC1 : FileManager :=
  ⟨⟨expC, ["/home/u/a.txt", "/home/u/gone.txt"], ["a.txt", "gone.txt"]⟩⟩

/-- A world where the selected path `/home/u/docs` is an existing,
non-empty directory and `/dest` is an existing directory. -/
def wC2 : World :=
  ⟨["/home/u/docs/n.txt"], ["/home/u", "/home/u/docs", "/dest"]⟩

/-- A manager whose selection holds the existing directory
`/home/u/docs`. -/
def mC2 : FileManager := ⟨⟨expC, ["/home/u/docs"], ["docs"]⟩⟩

-- Sanity examples for the path model.
example : os_path_dirname "/home/u/docs" = "/home/u" := by decide

example : os_path_dirname "/" = "/" := by decide

example : os_path_dirname "" = "" := by decide

example : os_path_dirname "a" = "" := by decide

example : os_path_join "/home/u" "docs" = "/home/u/docs" := by decide

example : os_path_basename "/home/u/a.txt" = "a.txt" := by decide

-- Sanity examples for the embedded operations.
example : expC.navigate_to_index envC 1 = (⟨"/home/u/docs"⟩, Except.ok ()) := by
  decide

example : expC.navigate_to_index envC 0 =
    (expC, Except.error (Err.notADirectory "a.txt")) := by decide

example : expC.navigate_to_index envC 5 =
    (expC, Except.error Err.invalidIndex) := by decide

example : (selC.select_files_by_indices envC [0, 2]).2 =
    Except.ok ["/home/u/a.txt", "/home/u/b.txt"] := by decide

example : (selC.select_files_by_indices envC [0, 5, 1]).1.selected_files =
    ["/home/u/a.txt"] := by decide

/-- On a run of in-range indices the selection loop appends exactly the
resolved paths, in input order, and succeeds. -/
theorem select_indices_loop_all_valid (cd : String) (contents : List String) :
    ∀ (indices : List Int),
      (∀ j ∈ indices, 0 ≤ j ∧ j < (contents.length : Int)) →
      ∀ acc : List String,
      select_indices_loop cd contents acc indices =
        (acc ++ indices.map (resolved_path cd contents), Except.ok ())
  | [], _, acc => by simp [select_indices_loop]
  | i :: rest, hval, acc => by
    have hi := hval i (List.mem_cons_self i rest)
    have hrest : ∀ j ∈ rest, 0 ≤ j ∧ j < (contents.length : Int) :=
      fun j hj => hval j (List.mem_cons_of_mem i hj)
    rw [select_indices_loop, if_pos hi,
      select_indices_loop_all_valid cd contents rest hrest]
    simp [resolved_path]

/-- When the first out-of-range index is reached, the loop stops with
`invalidIndex`, keeping exactly the paths resolved for the preceding
indices. -/
theorem select_indices_loop_first_invalid (cd : String) (contents : List String)
    (i : Int) (hi : ¬ (0 ≤ i ∧ i < (contents.length : Int)))
    (rest : List Int) :
    ∀ (pre : List Int),
      (∀ j ∈ pre, 0 ≤ j ∧ j < (contents.length : Int)) →
      ∀ acc : List String,
      select_indices_loop cd contents acc (pre ++ i :: rest) =
        (acc ++ pre.map (resolved_path cd contents),
         Except.error Err.invalidIndex)
  | [], _, acc => by
    simp only [List.nil_append, select_indices_loop, if_neg hi, List.map_nil,
      List.append_nil]
  | p :: ps, hpre, acc => by
    have hp := hpre p (List.mem_cons_self p ps)
    have hps : ∀ j ∈ ps, 0 ≤ j ∧ j < (contents.length : Int) :=
      fun j hj => hpre j (List.mem_cons_of_mem p hj)
    rw [List.cons_append, select_indices_loop, if_pos hp,
      select_indices_loop_first_invalid cd contents i hi rest ps hps]
    simp [resolved_path]

/-- Full characterisation of `select_files_by_indices` on a readable
directory when every index is in range: the snapshot is refreshed, the
SelectionSet is exactly the resolved paths in input order, and the call
succeeds returning them. -/
theorem select_files_by_indices_all_valid (env : OsEnv) (s : FileSelector)
    (contents : List String)
    (hls : env.listdir s.explorer.current_path = Except.ok contents)
    (indices : List Int)
    (hval : ∀ j ∈ indices, 0 ≤ j ∧ j < (contents.length : Int)) :
    s.select_files_by_indices env indices =
      ({ explorer := s.explorer,
         selected_files :=
           indices.map (resolved_path s.explorer.current_path contents),
         current_directory_contents := contents },
       Except.ok (indices.map (resolved_path s.explorer.current_path contents))) := by
  unfold FileSelector.select_files_by_indices FileSelector.load_directory_contents
    FileExplorer.list_directory_contents
  rw [hls]
  simp only [FileExplorer.get_current_directory]
  rw [select_indices_loop_all_valid s.explorer.current_path contents indices hval []]
  simp

/-- `navigate_to_index` on an in-range index: enter the entry when it is a
directory, otherwise keep the path and signal `notADirectory`. -/
theorem navigate_to_index_in_range (env : OsEnv) (e : FileExplorer)
    (contents : List String)
    (hls : env.listdir e.current_path = Except.ok contents)
    (i : Nat) (hi : i < contents.length) :
    e.navigate_to_index env (i : Int) =
      (if env.isdir (os_path_join e.current_path (contents.getD i "")) then
        (⟨os_path_join e.current_path (contents.getD i "")⟩, Except.ok ())
      else (e, Except.error (Err.notADirectory (contents.getD i "")))) := by
  unfold FileExplorer.navigate_to_index FileExplorer.list_directory_contents
  rw [hls]
  have hcond : ¬ ((i : Int) < 0 ∨ (contents.length : Int) ≤ (i : Int)) := by
    omega
  have htn : ((i : Int)).toNat = i := Int.toNat_natCast i
  simp only [hcond, if_false, htn, ite_false]

/-- `navigate_to_index` either leaves the current path untouched or
succeeds: every error path returns the explorer unchanged. -/
theorem navigate_unchanged_or_ok (env : OsEnv) (e : FileExplorer) (i : Int) :
    (e.navigate_to_index env i).1 = e ∨
    (e.navigate_to_index env i).2 = Except.ok () := by
  unfold FileExplorer.navigate_to_index FileExplorer.list_directory_contents
  rcases hl : env.listdir e.current_path with er | contents
  · left
    rfl
  · by_cases hcond : i < 0 ∨ (contents.length : Int) ≤ i
    · left
      simp [hcond]
    · simp only [hcond, if_false, ite_false]
      split
      · right
        rfl
      · left
        rfl

/-- `copy_files` post-state: on success the selection is cleared; when the
loop propagates a failure the manager (hence the SelectionSet) is returned
unchanged. -/
theorem copy_files_post (m : FileManager) (w : World) (dst : String) :
    ((m.copy_files w dst).2 = Except.ok () ∧
       (m.copy_files w dst).1.1 = ⟨m.selector.clear_selection⟩) ∨
    ((m.copy_files w dst).1.1 = m ∧
       ∃ er, (m.copy_files w dst).2 = Except.error er) := by
  unfold FileManager.copy_files
  rcases hl : copy_files_loop w dst m.selector.get_selected_files with ⟨w1, r⟩
  cases r with
  | ok u =>
    left
    cases u
    exact ⟨rfl, rfl⟩
  | error er =>
    right
    exact ⟨rfl, er, rfl⟩

/-- `move_files` post-state, same dichotomy as `copy_files_post`. -/
theorem move_files_post (m : FileManager) (w : World) (dst : String) :
    ((m.move_files w dst).2 = Except.ok () ∧
       (m.move_files w dst).1.1 = ⟨m.selector.clear_selection⟩) ∨
    ((m.move_files w dst).1.1 = m ∧
       ∃ er, (m.move_files w dst).2 = Except.error er) := by
  unfold FileManager.move_files
  rcases hl : move_files_loop w dst m.selector.get_selected_files with ⟨w1, r⟩
  cases r with
  | ok u =>
    left
    cases u
    exact ⟨rfl, rfl⟩
  | error er =>
    right
    exact ⟨rfl, er, rfl⟩

/-- `delete_files` post-state, same dichotomy as `copy_files_post`. -/
theorem delete_files_post (m : FileManager) (w : World) :
    ((m.delete_files w).2 = Except.ok () ∧
       (m.delete_files w).1.1 = ⟨m.selector.clear_selection⟩) ∨
    ((m.delete_files w).1.1 = m ∧
       ∃ er, (m.delete_files w).2 = Except.error er) := by
  unfold FileManager.delete_files
  rcases hl : delete_files_loop w m.selector.get_selected_files with ⟨w1, r⟩
  cases r with
  | ok u =>
    left
    cases u
    exact ⟨rfl, rfl⟩
  | error er =>
    right
    exact ⟨rfl, er, rfl⟩

/-- Full characterisation of `select_files_by_indices` on a readable
directory when an out-of-range index occurs: the call fails with
`invalidIndex` and the SelectionSet holds exactly the paths resolved for
the indices preceding the first invalid one. -/
theorem select_files_by_indices_first_invalid (env : OsEnv) (s : FileSelector)
    (contents : List String)
    (hls : env.listdir s.explorer.current_path = Except.ok contents)
    (pre : List Int) (i : Int) (rest : List Int)
    (hpre : ∀ j ∈ pre, 0 ≤ j ∧ j < (contents.length : Int))
    (hi : ¬ (0 ≤ i ∧ i < (contents.length : Int))) :
    s.select_files_by_indices env (pre ++ i :: rest) =
      ({ explorer := s.explorer,
         selected_files := pre.map (resolved_path s.explorer.current_path contents),
         current_directory_contents := contents },
       Except.error Err.invalidIndex) := by
  unfold FileSelector.select_files_by_indices FileSelector.load_directory_contents
    FileExplorer.list_directory_contents
  rw [hls]
  simp only [FileExplorer.get_current_directory]
  rw [select_indices_loop_first_invalid s.explorer.current_path contents i hi
    rest pre hpre []]
  simp

/-- Claim C1 is false as stated: `delete_files` on a selection whose second
path is missing deletes the first path, propagates `FileNotFoundError`, and
the SelectionSet is NOT cleared — it still holds both paths, because the
`clear_selection()` call sits after the loop with no `finally`, so the
raised exception skips it. -/
theorem claim_C1_counterexample :
    (mC1.delete_files wC1).2 = Except.error (Err.notFound "/home/u/gone.txt") ∧
    (mC1.delete_files wC1).1.1.selector.selected_files =
      ["/home/u/a.txt", "/home/u/gone.txt"] ∧
    (mC1.delete_files wC1).1.2.files = [] := by
  decide

/-- Claim C1 (amended): for every bulk operation (copy, move, delete), the
SelectionSet is cleared when the per-path loop completes successfully; when
a failure is propagated out partway through, the clear is skipped and the
SelectionSet (indeed the whole manager state) is left exactly as before the
call. -/
theorem claim_C1 (m : FileManager) (w : World) (dst : String) :
    cleared_on_success_kept_on_failure m (m.copy_files w dst) ∧
    cleared_on_success_kept_on_failure m (m.move_files w dst) ∧
    cleared_on_success_kept_on_failure m (m.delete_files w) := by
  refine ⟨?_, ?_, ?_⟩
  · rcases copy_files_post m w dst with ⟨h2, h1⟩ | ⟨h1, er, h2⟩ <;>
      simp [cleared_on_success_kept_on_failure, h2, h1,
        FileSelector.clear_selection]
  · rcases move_files_post m w dst with ⟨h2, h1⟩ | ⟨h1, er, h2⟩ <;>
      simp [cleared_on_success_kept_on_failure, h2, h1,
        FileSelector.clear_selection]
  · rcases delete_files_post m w with ⟨h2, h1⟩ | ⟨h1, er, h2⟩ <;>
      simp [cleared_on_success_kept_on_failure, h2, h1,
        FileSelector.clear_selection]

/-- Claim C2 names a code bug: on a selection holding an existing
directory, `copy_files` does not copy it recursively — `shutil.copy2`
raises `IsADirectoryError` on a directory source, so the call fails and the
filesystem is left unchanged (nothing is copied into `/dest`). -/
theorem claim_C2_code_behavior :
    (mC2.copy_files wC2 "/dest").2 =
      Except.error (Err.isADirectory "/home/u/docs") ∧
    (mC2.copy_files wC2 "/dest").1.2 = wC2 := by
  decide

/-- Claim C3: on a readable directory, an index sequence whose first
out-of-range index is `i` makes `select_files_by_indices` fail with
`IndexOutOfRange`, and the SelectionSet afterwards holds exactly the paths
resolved for the indices preceding `i` (empty when `i` comes first). -/
theorem claim_C3 (env : OsEnv) (s : FileSelector) (contents : List String)
    (hls : env.listdir s.explorer.current_path = Except.ok contents)
    (pre : List Int) (i : Int) (rest : List Int)
    (hpre : ∀ j ∈ pre, 0 ≤ j ∧ j < (contents.length : Int))
    (hi : ¬ (0 ≤ i ∧ i < (contents.length : Int))) :
    (s.select_files_by_indices env (pre ++ i :: rest)).2 =
      Except.error Err.invalidIndex ∧
    (s.select_files_by_indices env (pre ++ i :: rest)).1.selected_files =
      pre.map (resolved_path s.explorer.current_path contents) := by
  rw [select_files_by_indices_first_invalid env s contents hls pre i rest
    hpre hi]
  exact ⟨rfl, rfl⟩

/-- Witness for C3: the spec scenario — three entries, indices `[0, 5]` —
fails with `IndexOutOfRange` keeping only the path for index 0; the
sub-case of a first failing index is exercised by `pre = [0]` being the
whole valid run. -/
theorem claim_C3_witness :
    (selC.select_files_by_indices envC [0, 5]).2 =
      Except.error Err.invalidIndex ∧
    (selC.select_files_by_indices envC [0, 5]).1.selected_files =
      ["/home/u/a.txt"] := by
  have h := claim_C3 envC selC ["a.txt", "docs", "b.txt"] (by decide)
    [0] 5 [] (by decide) (by decide)
  exact ⟨h.1, h.2.trans (by decide)⟩

/-- Claim C4: for a valid index `i`, `navigate_to_index i` enters
`join(oldPath, entry_i)` when that entry is a directory, and otherwise
leaves the current path unchanged and signals `NotADirectory`. -/
theorem claim_C4 (env : OsEnv) (e : FileExplorer) (contents : List String)
    (hls : env.listdir e.current_path = Except.ok contents)
    (i : Nat) (hi : i < contents.length) :
    (env.isdir (os_path_join e.current_path (contents.getD i "")) = true →
      e.navigate_to_index env (i : Int) =
        (⟨os_path_join e.current_path (contents.getD i "")⟩, Except.ok ())) ∧
    (env.isdir (os_path_join e.current_path (contents.getD i "")) = false →
      e.navigate_to_index env (i : Int) =
        (e, Except.error (Err.notADirectory (contents.getD i "")))) := by
  rw [navigate_to_index_in_range env e contents hls i hi]
  constructor
  · intro hdir
    rw [if_pos hdir]
  · intro hdir
    rw [if_neg (by rw [hdir]; exact Bool.false_ne_true)]

/-- Witness for C4: in the concrete environment, entry 1 (`docs`) is a
directory and navigating to it sets the current path to `/home/u/docs`;
entry 0 (`a.txt`) is not a directory and navigating to it fails with
`NotADirectory` leaving the path at `/home/u`. -/
theorem claim_C4_witness :
    expC.navigate_to_index envC 1 = (⟨"/home/u/docs"⟩, Except.ok ()) ∧
    expC.navigate_to_index envC 0 =
      (expC, Except.error (Err.notADirectory "a.txt")) := by
  constructor
  · have h := (claim_C4 envC expC ["a.txt", "docs", "b.txt"] (by decide)
      1 (by decide)).1 (by decide)
    exact h.trans (by decide)
  · have h := (claim_C4 envC expC ["a.txt", "docs", "b.txt"] (by decide)
      0 (by decide)).2 (by decide)
    exact h.trans (by decide)

/-- Claim C5: on a readable directory listing, `navigate_to_index i` fails
with `IndexOutOfRange` exactly when `i` lies outside `[0, len)`; inside
the range that failure never occurs. -/
theorem claim_C5 (env : OsEnv) (e : FileExplorer) (contents : List String)
    (hls : env.listdir e.current_path = Except.ok contents) (i : Int) :
    (e.navigate_to_index env i).2 = Except.error Err.invalidIndex ↔
      (i < 0 ∨ (contents.length : Int) ≤ i) := by
  unfold FileExplorer.navigate_to_index FileExplorer.list_directory_contents
  rw [hls]
  by_cases hcond : i < 0 ∨ (contents.length : Int) ≤ i
  · simp [hcond]
  · simp only [hcond, if_false, ite_false, iff_false]
    intro h
    split at h <;> simp_all

/-- Witness for C5: with three entries, index 5 is out of range and the
call indeed fails with `IndexOutOfRange`. -/
theorem claim_C5_witness :
    (expC.navigate_to_index envC 5).2 = Except.error Err.invalidIndex := by
  exact (claim_C5 envC expC ["a.txt", "docs", "b.txt"] (by decide) 5).mpr
    (by decide)

/-- Claim C6: against an unchanged, readable directory and indices that
are all in range, running `select_files_by_indices` twice in a row yields
the same SelectionSet and the same returned value both times. -/
theorem claim_C6 (env : OsEnv) (s : FileSelector) (contents : List String)
    (hls : env.listdir s.explorer.current_path = Except.ok contents)
    (indices : List Int)
    (hval : ∀ j ∈ indices, 0 ≤ j ∧ j < (contents.length : Int)) :
    ((s.select_files_by_indices env indices).1.select_files_by_indices env
        indices).1.selected_files =
      (s.select_files_by_indices env indices).1.selected_files ∧
    ((s.select_files_by_indices env indices).1.select_files_by_indices env
        indices).2 =
      (s.select_files_by_indices env indices).2 := by
  have h1 := select_files_by_indices_all_valid env s contents hls indices hval
  have h1a : (s.select_files_by_indices env indices).1 =
      { explorer := s.explorer,
        selected_files :=
          indices.map (resolved_path s.explorer.current_path contents),
        current_directory_contents := contents } := by
    rw [h1]
  rw [h1a]
  rw [select_files_by_indices_all_valid env
    ({ explorer := s.explorer,
       selected_files :=
         indices.map (resolved_path s.explorer.current_path contents),
       current_directory_contents := contents }) contents hls indices hval]
  rw [h1]
  exact ⟨rfl, rfl⟩

/-- Witness for C6: selecting indices `[1, 0, 1]` (valid, with a
duplicate) twice in the concrete environment yields the same
SelectionSet both times. -/
theorem claim_C6_witness :
    ((selC.select_files_by_indices envC [1, 0, 1]).1.select_files_by_indices
        envC [1, 0, 1]).1.selected_files =
      (selC.select_files_by_indices envC [1, 0, 1]).1.selected_files := by
  exact (claim_C6 envC selC ["a.txt", "docs", "b.txt"] (by decide) [1, 0, 1]
    (by decide)).1

/-- Claim C7: every bulk operation that succeeds leaves the SelectionSet
empty afterwards, and `clear_selection` leaves it empty from any prior
state. -/
theorem claim_C7 (m : FileManager) (w : World) (dst : String)
    (s : FileSelector) :
    selection_empty_on_success (m.copy_files w dst) ∧
    selection_empty_on_success (m.move_files w dst) ∧
    selection_empty_on_success (m.delete_files w) ∧
    s.clear_selection.selected_files = [] := by
  refine ⟨?_, ?_, ?_, rfl⟩
  · rcases copy_files_post m w dst with ⟨h2, h1⟩ | ⟨h1, er, h2⟩ <;>
      simp [selection_empty_on_success, h2, h1, FileSelector.clear_selection]
  · rcases move_files_post m w dst with ⟨h2, h1⟩ | ⟨h1, er, h2⟩ <;>
      simp [selection_empty_on_success, h2, h1, FileSelector.clear_selection]
  · rcases delete_files_post m w with ⟨h2, h1⟩ | ⟨h1, er, h2⟩ <;>
      simp [selection_empty_on_success, h2, h1, FileSelector.clear_selection]

/-- Claim C8: on a readable directory, selecting the empty index sequence
succeeds, returns the empty list, and leaves the SelectionSet empty. -/
theorem claim_C8 (env : OsEnv) (s : FileSelector) (contents : List String)
    (hls : env.listdir s.explorer.current_path = Except.ok contents) :
    (s.select_files_by_indices env []).2 = Except.ok [] ∧
    (s.select_files_by_indices env []).1.selected_files = [] := by
  have h := select_files_by_indices_all_valid env s contents hls []
    (by simp)
  rw [h]
  exact ⟨rfl, rfl⟩

/-- Witness for C8: the empty selection call in the concrete
environment. -/
theorem claim_C8_witness :
    (selC.select_files_by_indices envC []).2 = Except.ok [] ∧
    (selC.select_files_by_indices envC []).1.selected_files = [] := by
  exact claim_C8 envC selC ["a.txt", "docs", "b.txt"] (by decide)

/-- Claim C9: `go_to_parent_directory` always sets the current path to
`os.path.dirname` of the old path — a pure string computation: the
operation is total, consults no filesystem oracle and signals no error.
At the root `/` the path is unchanged, and on a slash-free path it
degrades to the empty string, silently in both cases. -/
theorem claim_C9 :
    (∀ e : FileExplorer,
      e.go_to_parent_directory =
        { current_path := os_path_dirname e.current_path }) ∧
    FileExplorer.go_to_parent_directory ⟨"/"⟩ = ⟨"/"⟩ ∧
    FileExplorer.go_to_parent_directory ⟨"a"⟩ = ⟨""⟩ := by
  exact ⟨fun e => rfl, by decide, by decide⟩

/-- Claim C10: whenever `navigate_to_index` fails — unreadable listing,
out-of-range index, or a non-directory entry — the current path is left
exactly as it was before the call. -/
theorem claim_C10 (env : OsEnv) (e : FileExplorer) (i : Int) (er : Err)
    (h : (e.navigate_to_index env i).2 = Except.error er) :
    (e.navigate_to_index env i).1 = e := by
  rcases navigate_unchanged_or_ok env e i with h1 | h2
  · exact h1
  · rw [h2] at h
    exact absurd h (by simp)

/-- Witness for C10: both failure kinds in the concrete environment —
index 0 names a file (`NotADirectory`) and index 99 is out of range — and
in both cases the explorer still sits at `/home/u`. -/
theorem claim_C10_witness :
    (expC.navigate_to_index envC 0).1 = expC ∧
    (expC.navigate_to_index envC 99).1 = expC := by
  constructor
  · exact claim_C10 envC expC 0 (Err.notADirectory "a.txt") (by decide)
  · exact claim_C10 envC expC 99 Err.invalidIndex (by decide)
